import Mathlib

/-
Verification of the EventHive campus-events backend: a shallow embedding of
the Express route handlers (registration workflow, event registry routing,
credential store) and proofs of the specified properties against it.

The relational store is modelled as explicit lists of rows; every SQL query
used by the handlers is translated to the corresponding list operation.
External library behaviour (bcrypt comparison and hashing, Joi's email
format check) is abstracted as function parameters, mirroring the spec's
treatment of them as external collaborators.
-/

namespace EventHive

/-- Roles, per the users table CHECK constraint in the setup script. -/
inductive Role
  | student
  | organizer
  | admin
deriving DecidableEq, Repr

/-- Registration statuses, per the registrations table and the Joi schema. -/
inductive RegStatus
  | pending
  | approved
  | rejected
deriving DecidableEq, Repr

/-- The string stored in the status column / sent in JSON bodies. -/
def RegStatus.toDbString : RegStatus → String
  | .pending => "pending"
  | .approved => "approved"
  | .rejected => "rejected"

/-- A row of the users table (columns used by the handlers). -/
structure User where
  id : Nat
  username : String
  email : String
  password_hash : String
  role : Role
deriving DecidableEq, Repr

/-- A row of the events table. The date is a timestamp modelled as an
integer; handlers only ever compare it against the current time. -/
structure Event where
  id : Nat
  title : String
  date : Int
  location : String
  max_attendees : Nat
  created_by : Nat
deriving DecidableEq, Repr

/-- A row of the registrations table. -/
structure Registration where
  id : Nat
  event_id : Nat
  user_id : Nat
  status : RegStatus
deriving DecidableEq, Repr

/-- The relational store. -/
structure DB where
  users : List User
  events : List Event
  registrations : List Registration
deriving DecidableEq, Repr

/-- SELECT COUNT(*) FROM registrations WHERE event_id = $1 AND status = 'approved' -/
def approvedCount (db : DB) (eventId : Nat) : Nat :=
  (db.registrations.filter
    (fun r => r.event_id == eventId && r.status == RegStatus.approved)).length

/-- SELECT ... FROM events WHERE id = $1 (first row, if any). -/
def findEvent (db : DB) (eventId : Nat) : Option Event :=
  db.events.find? (fun e => e.id == eventId)

/-- SELECT ... FROM registrations WHERE id = $1 (first row, if any). -/
def findRegistration (db : DB) (regId : Nat) : Option Registration :=
  db.registrations.find? (fun r => r.id == regId)

/-- SELECT id, status FROM registrations WHERE event_id = $1 AND user_id = $2 -/
def findRegistrationFor (db : DB) (eventId userId : Nat) : Option Registration :=
  db.registrations.find? (fun r => r.event_id == eventId && r.user_id == userId)

/-- The SERIAL primary key the insert would be assigned. -/
def nextRegistrationId (db : DB) : Nat :=
  (db.registrations.map (fun r => r.id)).foldr Nat.max 0 + 1

/-- Outcomes of POST /api/registrations (after the auth middleware). -/
inductive RegisterResult
  | badRequest
  | notFound
  | invalidState
  | conflict (existing : RegStatus)
  | full
  | created (r : Registration)
deriving DecidableEq, Repr

/-- The message field of the JSON envelope for each outcome of the
registration handler, as written in the source. -/
def registerResultMessage : RegisterResult → String
  | .badRequest => "Event ID is required"
  | .notFound => "Event not found"
  | .invalidState => "Cannot register for past events"
  | .conflict st => "Already registered for this event with status: " ++ st.toDbString
  | .full => "Event is full"
  | .created _ => "Successfully registered for the event"

/-- POST /api/registrations handler body: checks the event exists, is in the
future, that no registration for (event, user) exists, and the approval
capacity gate, then inserts a pending registration. -/
def registerForEvent (db : DB) (event_id? : Option Nat) (userId : Nat) (now : Int) :
    RegisterResult × DB :=
  match event_id? with
  | none => (.badRequest, db)
  | some event_id =>
    match findEvent db event_id with
    | none => (.notFound, db)
    | some event =>
      if event.date ≤ now then (.invalidState, db)
      else
        match findRegistrationFor db event_id userId with
        | some reg => (.conflict reg.status, db)
        | none =>
          if approvedCount db event_id ≥ event.max_attendees then (.full, db)
          else
            let newReg : Registration :=
              { id := nextRegistrationId db, event_id := event_id,
                user_id := userId, status := RegStatus.pending }
            (.created newReg, { db with registrations := db.registrations ++ [newReg] })

/-- The join used by PUT /api/registrations/:id/status:
SELECT r.*, e.created_by ... FROM registrations r JOIN events e ON r.event_id = e.id
WHERE r.id = $1. -/
def findRegistrationWithEvent (db : DB) (regId : Nat) : Option (Registration × Event) :=
  match findRegistration db regId with
  | none => none
  | some r =>
    match findEvent db r.event_id with
    | none => none
    | some e => some (r, e)

/-- Outcomes of PUT /api/registrations/:id/status. -/
inductive SetStatusResult
  | notFound
  | forbidden
  | full
  | updated (r : Registration)
deriving DecidableEq, Repr

/-- PUT /api/registrations/:id/status handler body (after authenticateToken,
requireOrganizer and the status-schema validation): looks up the
registration joined with its event, checks ownership unless the caller is
admin, re-checks capacity when approving, then updates status and
updated_at. -/
def setStatus (db : DB) (regId : Nat) (status : RegStatus) (caller : User) :
    SetStatusResult × DB :=
  match findRegistrationWithEvent db regId with
  | none => (.notFound, db)
  | some (registration, event) =>
    if caller.role ≠ Role.admin ∧ event.created_by ≠ caller.id then
      (.forbidden, db)
    else
      if status = RegStatus.approved ∧
          approvedCount db registration.event_id ≥ event.max_attendees then
        (.full, db)
      else
        let updatedRegs := db.registrations.map
          (fun r => if r.id == regId then { r with status := status } else r)
        (.updated { registration with status := status },
         { db with registrations := updatedRegs })

/-- The named exports of src/server/database/connection.js:
module.exports = \x7b pool, sql, query, getClient, testConnection, closePool, isNeonDatabase \x7d. -/
def connectionModuleExports : List String :=
  ["pool", "sql", "query", "getClient", "testConnection", "closePool", "isNeonDatabase"]

/-- Own properties assigned on the exported query function value itself.
The source never assigns any property to the query function. -/
def queryFunctionOwnProperties : List String := []

/-- The member access query.getClient performed by the bulk-status handler
after the destructuring import of query alone: it resolves to a value only
when getClient is a property of the query function object. -/
def queryHasGetClientProperty : Bool :=
  queryFunctionOwnProperties.contains "getClient"

/-- Status strings accepted by the bulk handler's inline validation. -/
def validBulkStatuses : List String := ["pending", "approved", "rejected"]

/-- Mapping of a validated status string to the stored status. -/
def statusOfString : String → RegStatus
  | "approved" => RegStatus.approved
  | "rejected" => RegStatus.rejected
  | _ => RegStatus.pending

/-- Outcomes of PUT /api/registrations/bulk-status. -/
inductive BulkStatusResult
  | badRequestIds
  | badRequestStatus
  | internalError
  | forbidden
  | updated (rs : List Registration)
deriving DecidableEq, Repr

/-- PUT /api/registrations/bulk-status handler body (after authenticateToken
and requireOrganizer): validates the id array and the status string, then
evaluates query.getClient(). Because getClient is not a property of the
destructured query function, that call raises a TypeError, which the outer
catch maps to a 500 response; the transaction body below the call is written
in the source but cannot be reached. -/
def bulkSetStatus (db : DB) (registration_ids : List Nat) (status : String)
    (caller : User) : BulkStatusResult × DB :=
  if registration_ids.isEmpty then (.badRequestIds, db)
  else if ¬ (validBulkStatuses.contains status) then (.badRequestStatus, db)
  else if queryHasGetClientProperty = false then (.internalError, db)
  else
    let verified := db.registrations.filterMap (fun r =>
      if registration_ids.contains r.id then
        (findEvent db r.event_id).map (fun e => (r, e.created_by))
      else none)
    if caller.role ≠ Role.admin ∧ verified.any (fun p => p.2 ≠ caller.id) then
      (.forbidden, db)
    else
      let updatedRegs := db.registrations.map
        (fun r => if registration_ids.contains r.id then
            { r with status := statusOfString status } else r)
      (.updated (updatedRegs.filter (fun r => registration_ids.contains r.id)),
       { db with registrations := updatedRegs })

/-- HTTP methods used by the routers. -/
inductive HttpMethod
  | get
  | post
  | put
  | delete
deriving DecidableEq, Repr

/-- One segment of an Express route pattern: a literal or a :param. -/
inductive RouteSeg
  | lit (s : String)
  | param (name : String)
deriving DecidableEq, Repr

/-- Whether one pattern segment matches one path segment. -/
def segMatches : RouteSeg → String → Bool
  | .lit s, seg => s == seg
  | .param _, _ => true

/-- Express pattern matching: same number of segments, each matching. -/
def routeMatches (pattern : List RouteSeg) (path : List String) : Bool :=
  pattern.length == path.length &&
    (List.zip pattern path).all (fun p => segMatches p.1 p.2)

/-- The req.params binding produced by a match. -/
def routeParams (pattern : List RouteSeg) (path : List String) :
    List (String × String) :=
  (List.zip pattern path).filterMap (fun p =>
    match p.1 with
    | .param n => some (n, p.2)
    | .lit _ => none)

/-- The handlers of src/server/routes/events.js. -/
inductive EventsHandler
  | listEvents
  | getById
  | createEvent
  | updateEvent
  | deleteEvent
  | myEvents
deriving DecidableEq, Repr

/-- The events router's routes in source registration order: GET /, then
GET /:id, POST /, PUT /:id, DELETE /:id, and GET /my-events last. -/
def eventsRoutes : List (HttpMethod × List RouteSeg × EventsHandler) :=
  [ (.get, [], .listEvents),
    (.get, [.param "id"], .getById),
    (.post, [], .createEvent),
    (.put, [.param "id"], .updateEvent),
    (.delete, [.param "id"], .deleteEvent),
    (.get, [.lit "my-events"], .myEvents) ]

/-- Express dispatch: the first registered route whose method and pattern
match handles the request, with the extracted params. -/
def dispatchEvents (m : HttpMethod) (path : List String) :
    Option (EventsHandler × List (String × String)) :=
  (eventsRoutes.find? (fun r => r.1 == m && routeMatches r.2.1 path)).map
    (fun r => (r.2.2, routeParams r.2.1 path))

/-- The claims jwt.sign is called with in both register and login. -/
structure TokenClaims where
  userId : Nat
  username : String
  role : Role
deriving DecidableEq, Repr

/-- A signed token: payload claims plus the optional exp claim jwt.sign
adds only when an expiresIn option is passed. -/
structure SignedToken where
  claims : TokenClaims
  exp : Option Int
deriving DecidableEq, Repr

/-- Both jwt.sign call sites pass only the payload and the secret, no
expiresIn option, so the issued token carries no exp claim. -/
def signAuthToken (c : TokenClaims) : SignedToken :=
  { claims := c, exp := none }

/-- jwt.verify raises TokenExpiredError exactly when the token carries an
exp claim that is not in the future. -/
def tokenExpiredAt (t : SignedToken) (now : Int) : Bool :=
  match t.exp with
  | none => false
  | some e => e ≤ now

/-- Outcomes of the authenticateToken middleware. -/
inductive AuthMidResult
  | missingToken
  | invalidToken
  | tokenExpired
  | userNotFound
  | authenticated (u : User)
deriving DecidableEq, Repr

/-- SELECT id, username, email, role FROM users WHERE id = $1 -/
def findUserById (db : DB) (userId : Nat) : Option User :=
  db.users.find? (fun u => u.id == userId)

/-- The authenticateToken middleware: requires a bearer token, verifies the
signature (abstracted as sigValid) and the expiry, then re-fetches the user
row. -/
def authenticateToken (db : DB) (token? : Option SignedToken) (sigValid : Bool)
    (now : Int) : AuthMidResult :=
  match token? with
  | none => .missingToken
  | some t =>
    if ¬ sigValid then .invalidToken
    else if tokenExpiredAt t now then .tokenExpired
    else
      match findUserById db t.claims.userId with
      | none => .userNotFound
      | some u => .authenticated u

/-- SELECT ... FROM users WHERE email = $1 -/
def findUserByEmail (db : DB) (email : String) : Option User :=
  db.users.find? (fun u => u.email == email)

/-- Outcomes of POST /api/auth/login: either an error envelope with its
HTTP status and message, or the user plus a freshly signed token. -/
inductive LoginResult
  | failure (httpStatus : Nat) (message : String)
  | success (user : User) (token : SignedToken)
deriving DecidableEq, Repr

/-- POST /api/auth/login handler body (after the login-schema validation):
looks the user up by email, compares the password against the stored hash
with bcrypt (abstracted as bcryptCompare), and returns the same 401
envelope for both failure modes. -/
def login (db : DB) (email password : String)
    (bcryptCompare : String → String → Bool) : LoginResult :=
  match findUserByEmail db email with
  | none => .failure 401 "Invalid email or password"
  | some user =>
    if bcryptCompare password user.password_hash then
      .success user (signAuthToken
        { userId := user.id, username := user.username, role := user.role })
    else
      .failure 401 "Invalid email or password"

/-- The body of POST /api/auth/register as seen by the Joi schema: every
field is optional at the wire level. -/
structure RegisterRequest where
  username : Option String
  email : Option String
  password : Option String
  role : Option String
deriving DecidableEq, Repr

/-- Joi registerSchema, username field: required, alphanumeric, length 3-30. -/
def usernameFieldErrors : Option String → List String
  | none => ["Username is required"]
  | some u =>
    (if u.toList.all Char.isAlphanum then []
     else ["Username must contain only alphanumeric characters"]) ++
    (if u.length < 3 then ["Username must be at least 3 characters long"] else []) ++
    (if u.length > 30 then ["Username must be at most 30 characters long"] else [])

/-- Joi registerSchema, email field: required, email format (the library's
format check is abstracted as the emailOk parameter). -/
def emailFieldErrors (emailOk : String → Bool) : Option String → List String
  | none => ["Email is required"]
  | some e => if emailOk e then [] else ["Please provide a valid email address"]

/-- Joi registerSchema, password field: required, length 6-100. -/
def passwordFieldErrors : Option String → List String
  | none => ["Password is required"]
  | some p =>
    (if p.length < 6 then ["Password must be at least 6 characters long"] else []) ++
    (if p.length > 100 then ["Password must be at most 100 characters long"] else [])

/-- Joi registerSchema, role field: optional, valid values student and
organizer only. -/
def roleFieldErrors : Option String → List String
  | none => []
  | some r =>
    if r == "student" || r == "organizer" then []
    else ["Role must be either student or organizer"]

/-- All per-field messages collected by validate(registerSchema) with
abortEarly false. -/
def registerSchemaErrors (emailOk : String → Bool) (req : RegisterRequest) :
    List String :=
  usernameFieldErrors req.username ++ emailFieldErrors emailOk req.email ++
    passwordFieldErrors req.password ++ roleFieldErrors req.role

/-- The validated role value: Joi defaults an absent role to student, and a
present value that passed validation is one of the two allowed strings. -/
def parseRoleField (role? : Option String) : Role :=
  if role? == some "organizer" then Role.organizer else Role.student

/-- The SERIAL primary key the users insert would be assigned. -/
def nextUserId (db : DB) : Nat :=
  (db.users.map (fun u => u.id)).foldr Nat.max 0 + 1

/-- Outcomes of POST /api/auth/register. -/
inductive RegisterUserResult
  | validationFailed (errors : List String)
  | conflict
  | created (user : User) (token : SignedToken)
deriving DecidableEq, Repr

/-- POST /api/auth/register: validate(registerSchema) rejects with the
collected messages; the handler then checks username/email uniqueness
(SELECT id FROM users WHERE username = $1 OR email = $2), hashes the
password with bcrypt (abstracted as bcryptHash), inserts the user with the
validated role, and signs a token over id, username and role. -/
def registerUser (db : DB) (req : RegisterRequest) (emailOk : String → Bool)
    (bcryptHash : String → String) : RegisterUserResult × DB :=
  if ¬ (registerSchemaErrors emailOk req).isEmpty then
    (.validationFailed (registerSchemaErrors emailOk req), db)
  else if db.users.any
      (fun u => u.username == req.username.getD "" || u.email == req.email.getD "") then
    (.conflict, db)
  else
    let newUser : User :=
      { id := nextUserId db, username := req.username.getD "",
        email := req.email.getD "",
        password_hash := bcryptHash (req.password.getD ""),
        role := parseRoleField req.role }
    (.created newUser
      (signAuthToken
        { userId := newUser.id, username := newUser.username, role := newUser.role }),
     { db with users := db.users ++ [newUser] })

/-- Concrete rows used by the scenario theorems. -/
def adminUser : User :=
  { id := 1, username := "admin", email := "admin@campus.edu",
    password_hash := "hash1", role := Role.admin }

def orgUser : User :=
  { id := 2, username := "organizer1", email := "organizer1@campus.edu",
    password_hash := "hash2", role := Role.organizer }

def orgUser2 : User :=
  { id := 3, username := "organizer2", email := "organizer2@campus.edu",
    password_hash := "hash3", role := Role.organizer }

def studentA : User :=
  { id := 4, username := "student1", email := "student1@campus.edu",
    password_hash := "hash4", role := Role.student }

def studentB : User :=
  { id := 5, username := "student2", email := "student2@campus.edu",
    password_hash := "hash5", role := Role.student }

/-- An event with capacity 1, owned by orgUser, dated in the future of the
scenario clock (now = 0). -/
def eventOne : Event :=
  { id := 1, title := "Hackathon", date := 100, location := "Computer Lab",
    max_attendees := 1, created_by := 2 }

/-- Student A's approved registration for eventOne. -/
def regA : Registration :=
  { id := 1, event_id := 1, user_id := 4, status := RegStatus.approved }

/-- Student B's pending registration for eventOne. -/
def regB : Registration :=
  { id := 2, event_id := 1, user_id := 5, status := RegStatus.pending }

/-- Store state after organizer approval of student A: eventOne is full. -/
def dbFull : DB :=
  { users := [adminUser, orgUser, orgUser2, studentA, studentB],
    events := [eventOne], registrations := [regA] }

/-- Same state with student B's pending registration added. -/
def dbFullPending : DB :=
  { dbFull with registrations := [regA, regB] }

def emptyDB : DB := { users := [], events := [], registrations := [] }

/-- C2: counterexample. With capacity 1, a future date and one approved
registration (so the event is full), a second student with no existing
registration does not get a pending registration from the register call:
the handler's own capacity check rejects it with Full and the store is
unchanged. -/
theorem register_full_event_scenario_cex :
    approvedCount dbFull 1 = 1 ∧
    eventOne.max_attendees = 1 ∧
    findRegistrationFor dbFull 1 5 = none ∧
    registerForEvent dbFull (some 1) 5 0 = (RegisterResult.full, dbFull) :=
  ⟨rfl, rfl, rfl, rfl⟩

/-- C2 as amended: in the capacity-1 scenario the second student's register
call fails with Full (the capacity gate also blocks at initial
registration), and a setStatus approval attempt on a pending registration
for the full event likewise fails with Full. -/
theorem register_full_event_scenario_amended :
    registerForEvent dbFull (some 1) 5 0 = (RegisterResult.full, dbFull) ∧
    setStatus dbFullPending 2 RegStatus.approved orgUser =
      (SetStatusResult.full, dbFullPending) :=
  ⟨rfl, rfl⟩

/-- C4: GET /api/events/my-events is handled by the GET /:id route, which
was registered first and whose :id pattern matches the literal path
segment, binding id to the string my-events; the my-events handler is
shadowed and the request falls through to the single-event-by-id lookup. -/
theorem myEvents_route_shadowed :
    dispatchEvents HttpMethod.get ["my-events"] =
      some (EventsHandler.getById, [("id", "my-events")]) := rfl

/-- C5: counterexample. Registration 1 is stored as approved, yet the
owning organizer's setStatus call with status pending succeeds and stores
pending again: the status schema admits pending as a target status. -/
theorem setStatus_back_to_pending_cex :
    (dbFull.registrations.find? (fun r => r.id == 1)).map Registration.status =
      some RegStatus.approved ∧
    (setStatus dbFull 1 RegStatus.pending orgUser).1 =
      SetStatusResult.updated { regA with status := RegStatus.pending } ∧
    ((setStatus dbFull 1 RegStatus.pending orgUser).2.registrations.find?
        (fun r => r.id == 1)).map Registration.status = some RegStatus.pending :=
  ⟨rfl, rfl, rfl⟩

/-- Helper: the bulk handler's ifs before the getClient call, discharged.
For any non-empty id list and valid status string it reaches the
query.getClient call, which throws, so the outer catch answers 500 with the
store untouched. -/
theorem bulkSetStatus_eq_internal (db : DB) (ids : List Nat) (status : String)
    (caller : User) (hids : ids ≠ []) (hst : validBulkStatuses.contains status = true) :
    bulkSetStatus db ids status caller = (BulkStatusResult.internalError, db) := by
  match ids, hids with
  | a :: l, _ =>
    unfold bulkSetStatus
    rw [if_neg (by simp), if_neg (fun hc => hc hst), if_pos (by rfl)]

/-- Helper: the bulk handler never mutates the store: every branch it can
actually reach returns the incoming state. -/
theorem bulkSetStatus_state_unchanged (db : DB) (ids : List Nat) (status : String)
    (caller : User) : (bulkSetStatus db ids status caller).2 = db := by
  unfold bulkSetStatus
  split
  · rfl
  · split
    · rfl
    · rw [if_pos (by rfl)]

/-- C3: a well-formed, authorized bulk status request does not update the
targeted registrations; the handler's query.getClient member access is
undefined (getClient is a separate export of the connection module, never a
property of the query function), so the call throws and every such request
is answered with the 500 envelope, store unchanged. -/
theorem bulkSetStatus_internal_error (db : DB) (ids : List Nat) (status : String)
    (caller : User) (hids : ids ≠ []) (hst : validBulkStatuses.contains status = true) :
    bulkSetStatus db ids status caller = (BulkStatusResult.internalError, db) :=
  bulkSetStatus_eq_internal db ids status caller hids hst

/-- C3 witness: an admin bulk approval of registration 1 concretely hits
the 500 branch. -/
theorem bulkSetStatus_internal_error_witness :
    bulkSetStatus dbFull [1] "approved" adminUser =
      (BulkStatusResult.internalError, dbFull) :=
  bulkSetStatus_internal_error dbFull [1] "approved" adminUser
    (by decide) (by decide)

/-- C7: for a non-admin caller targeting a registration of an event they do
not own, no registration in the batch is mutated; however the request fails
with the 500 envelope from the query.getClient TypeError, thrown before the
authorization check runs, not with Forbidden. -/
theorem bulkSetStatus_unauthorized_no_mutation (db : DB) (ids : List Nat)
    (status : String) (caller : User) (rid : Nat) (r : Registration) (ev : Event)
    (hrole : caller.role ≠ Role.admin)
    (hmem : rid ∈ ids)
    (hreg : findRegistration db rid = some r)
    (hev : findEvent db r.event_id = some ev)
    (hown : ev.created_by ≠ caller.id)
    (hst : validBulkStatuses.contains status = true) :
    bulkSetStatus db ids status caller = (BulkStatusResult.internalError, db) := by
  have hids : ids ≠ [] := by
    intro hnil
    rw [hnil] at hmem
    exact List.not_mem_nil rid hmem
  exact bulkSetStatus_eq_internal db ids status caller hids hst

/-- C7 witness: organizer2 bulk-rejecting registration 1, which belongs to
organizer1's event, gets the 500 envelope and the store is unchanged. -/
theorem bulkSetStatus_unauthorized_no_mutation_witness :
    bulkSetStatus dbFull [1] "rejected" orgUser2 =
      (BulkStatusResult.internalError, dbFull) :=
  bulkSetStatus_unauthorized_no_mutation dbFull [1] "rejected" orgUser2 1 regA
    eventOne (by decide) (by decide) rfl rfl (by decide) (by decide)

/-- C5 as amended: a registration's status can be moved back to pending:
setStatus accepts pending as a target (the schema lists it) and updates the
row for any authorized caller; bulkSetStatus never changes any stored
status, because it fails before mutating. -/
theorem setStatus_pending_allowed :
    (∀ (db : DB) (regId : Nat) (caller : User) (r : Registration) (ev : Event),
       findRegistrationWithEvent db regId = some (r, ev) →
       (caller.role = Role.admin ∨ ev.created_by = caller.id) →
       (setStatus db regId RegStatus.pending caller).1 =
         SetStatusResult.updated { r with status := RegStatus.pending }) ∧
    (∀ (db : DB) (ids : List Nat) (status : String) (caller : User),
       (bulkSetStatus db ids status caller).2 = db) := by
  constructor
  · intro db regId caller r ev hfind hauth
    have hnf : ¬(caller.role ≠ Role.admin ∧ ev.created_by ≠ caller.id) := by
      rcases hauth with h | h
      · exact fun hc => hc.1 h
      · exact fun hc => hc.2 h
    have hnp : ¬(RegStatus.pending = RegStatus.approved ∧
        approvedCount db r.event_id ≥ ev.max_attendees) := fun hc => by cases hc.1
    unfold setStatus
    rw [hfind]
    dsimp only
    rw [if_neg hnf, if_neg hnp]
  · exact bulkSetStatus_state_unchanged

/-- C5 amended witness: the owning organizer concretely resets approved
registration 1 to pending, and a concrete bulk request leaves the store
unchanged. -/
theorem setStatus_pending_allowed_witness :
    (setStatus dbFull 1 RegStatus.pending orgUser).1 =
      SetStatusResult.updated { regA with status := RegStatus.pending } ∧
    (bulkSetStatus dbFull [1] "pending" orgUser).2 = dbFull :=
  ⟨setStatus_pending_allowed.1 dbFull 1 orgUser regA eventOne rfl (Or.inr rfl),
   setStatus_pending_allowed.2 dbFull [1] "pending" orgUser⟩

/-- C8: any failing login is answered with the same envelope, whether the
email is unknown or the email is known and the bcrypt comparison fails:
both branches return 401 with the message Invalid email or password, so the
responses of the two failure modes are equal. -/
theorem login_uniform_error (db : DB) (e1 p1 e2 p2 : String)
    (bc : String → String → Bool) (u : User)
    (h1 : findUserByEmail db e1 = none)
    (h2 : findUserByEmail db e2 = some u)
    (h3 : bc p2 u.password_hash = false) :
    login db e1 p1 bc = login db e2 p2 bc ∧
    login db e1 p1 bc = LoginResult.failure 401 "Invalid email or password" := by
  unfold login
  rw [h1, h2]
  dsimp only
  rw [h3]
  exact ⟨rfl, rfl⟩

/-- C8 witness: an unknown email and organizer1's email with a failing
password comparison produce the identical concrete 401 envelope. -/
theorem login_uniform_error_witness :
    login dbFull "ghost@campus.edu" "pw1" (fun _ _ => false) =
      login dbFull "organizer1@campus.edu" "pw2" (fun _ _ => false) ∧
    login dbFull "ghost@campus.edu" "pw1" (fun _ _ => false) =
      LoginResult.failure 401 "Invalid email or password" :=
  login_uniform_error dbFull "ghost@campus.edu" "pw1" "organizer1@campus.edu"
    "pw2" (fun _ _ => false) orgUser rfl rfl rfl

/-- Helper: a token without an exp claim can never make the middleware take
its TokenExpired branch. -/
theorem authenticateToken_ne_expired (db : DB) (t : SignedToken)
    (sigValid : Bool) (now : Int) (h : t.exp = none) :
    authenticateToken db (some t) sigValid now ≠ AuthMidResult.tokenExpired := by
  have hfalse : tokenExpiredAt t now = false := by
    unfold tokenExpiredAt
    rw [h]
  unfold authenticateToken
  dsimp only
  by_cases hs : sigValid
  · simp only [hs, hfalse]
    simp only [not_true_eq_false, if_false, Bool.false_eq_true, ite_false]
    cases findUserById db t.claims.userId <;> simp
  · simp [hs]

/-- Helper: a successful registerUser result carries a token signed with no
exp claim. -/
theorem registerUser_token_exp_none (db : DB) (req : RegisterRequest)
    (emailOk : String → Bool) (bcryptHash : String → String) (u : User)
    (t : SignedToken) (db2 : DB)
    (h : registerUser db req emailOk bcryptHash = (RegisterUserResult.created u t, db2)) :
    t.exp = none := by
  unfold registerUser at h
  split at h
  · simp at h
  · split at h
    · simp at h
    · simp only [Prod.mk.injEq, RegisterUserResult.created.injEq] at h
      rw [← h.1.2]
      rfl

/-- Helper: a successful login result carries a token signed with no exp
claim. -/
theorem login_token_exp_none (db : DB) (email pw : String)
    (bc : String → String → Bool) (u : User) (t : SignedToken)
    (h : login db email pw bc = LoginResult.success u t) :
    t.exp = none := by
  unfold login at h
  split at h
  · simp_all
  · split at h
    · simp only [LoginResult.success.injEq] at h
      rw [← h.2]
      rfl
    · simp_all

/-- C9: tokens issued by register and by login are signed without an exp
claim, so the middleware's TokenExpired branch can never fire on them, at
any store state, any signature verdict and any clock value. -/
theorem issued_tokens_never_expire :
    (∀ (db : DB) (req : RegisterRequest) (emailOk : String → Bool)
        (bcryptHash : String → String) (u : User) (t : SignedToken) (db2 : DB),
       registerUser db req emailOk bcryptHash = (RegisterUserResult.created u t, db2) →
       t.exp = none ∧
       ∀ (db3 : DB) (sigValid : Bool) (now : Int),
         authenticateToken db3 (some t) sigValid now ≠ AuthMidResult.tokenExpired) ∧
    (∀ (db : DB) (email pw : String) (bc : String → String → Bool)
        (u : User) (t : SignedToken),
       login db email pw bc = LoginResult.success u t →
       t.exp = none ∧
       ∀ (db3 : DB) (sigValid : Bool) (now : Int),
         authenticateToken db3 (some t) sigValid now ≠ AuthMidResult.tokenExpired) := by
  constructor
  · intro db req emailOk bcryptHash u t db2 h
    have hexp := registerUser_token_exp_none db req emailOk bcryptHash u t db2 h
    exact ⟨hexp, fun db3 sv now => authenticateToken_ne_expired db3 t sv now hexp⟩
  · intro db email pw bc u t h
    have hexp := login_token_exp_none db email pw bc u t h
    exact ⟨hexp, fun db3 sv now => authenticateToken_ne_expired db3 t sv now hexp⟩

/-- A valid registration request without a role field. -/
def sampleRequest : RegisterRequest :=
  { username := some "alice1", email := some "alice@campus.edu",
    password := some "secret1", role := none }

/-- The user the sampleRequest insert produces on an empty store. -/
def sampleUser : User :=
  { id := 1, username := "alice1", email := "alice@campus.edu",
    password_hash := "h:secret1", role := Role.student }

/-- The token signed for sampleUser: no exp claim. -/
def sampleToken : SignedToken :=
  { claims := { userId := 1, username := "alice1", role := Role.student },
    exp := none }

/-- The token signed for orgUser on login: no exp claim. -/
def orgToken : SignedToken :=
  { claims := { userId := 2, username := "organizer1", role := Role.organizer },
    exp := none }

/-- The store after sampleRequest registers on an empty store. -/
def sampleDB2 : DB := { users := [sampleUser], events := [], registrations := [] }

/-- A registration request that asks for the admin role. -/
def adminRequest : RegisterRequest :=
  { username := some "bob22", email := some "bob@campus.edu",
    password := some "secret2", role := some "admin" }

/-- C9 witness: a token from a concrete successful register call and a
token from a concrete successful login call are both rejected by no expiry
check, here at clock value 1000000. -/
theorem issued_tokens_never_expire_witness :
    authenticateToken dbFull (some sampleToken) true 1000000 ≠
      AuthMidResult.tokenExpired ∧
    authenticateToken dbFull (some orgToken) true 1000000 ≠
      AuthMidResult.tokenExpired :=
  ⟨(issued_tokens_never_expire.1 emptyDB sampleRequest (fun _ => true)
      (fun p => "h:" ++ p) sampleUser sampleToken sampleDB2 rfl).2 dbFull true 1000000,
   (issued_tokens_never_expire.2 dbFull "organizer1@campus.edu" "pw"
      (fun _ _ => true) orgUser orgToken rfl).2 dbFull true 1000000⟩

/-- C10: a register request naming the admin role fails schema validation
with the role message among the errors and the store untouched; every user
the endpoint does create has role student or organizer, and an omitted role
defaults to student. -/
theorem public_register_role_restricted :
    (∀ (db : DB) (req : RegisterRequest) (emailOk : String → Bool)
        (bcryptHash : String → String),
       req.role = some "admin" →
       registerUser db req emailOk bcryptHash =
         (RegisterUserResult.validationFailed (registerSchemaErrors emailOk req), db) ∧
       "Role must be either student or organizer" ∈ registerSchemaErrors emailOk req) ∧
    (∀ (db : DB) (req : RegisterRequest) (emailOk : String → Bool)
        (bcryptHash : String → String) (u : User) (t : SignedToken) (db2 : DB),
       registerUser db req emailOk bcryptHash = (RegisterUserResult.created u t, db2) →
       (u.role = Role.student ∨ u.role = Role.organizer) ∧
       (req.role = none → u.role = Role.student)) := by
  constructor
  · intro db req emailOk bcryptHash hrole
    have hmem : "Role must be either student or organizer" ∈
        registerSchemaErrors emailOk req := by
      unfold registerSchemaErrors roleFieldErrors
      rw [hrole]
      simp
    refine ⟨?_, hmem⟩
    unfold registerUser
    rw [if_pos (fun hc => (List.ne_nil_of_mem hmem) (List.isEmpty_iff.mp hc))]
  · intro db req emailOk bcryptHash u t db2 h
    have hrole : ∀ role?, parseRoleField role? = Role.student ∨
        parseRoleField role? = Role.organizer := by
      intro role?
      unfold parseRoleField
      split
      · exact Or.inr rfl
      · exact Or.inl rfl
    unfold registerUser at h
    split at h
    · simp at h
    · split at h
      · simp at h
      · simp only [Prod.mk.injEq, RegisterUserResult.created.injEq] at h
        rw [← h.1.1]
        refine ⟨hrole req.role, fun hnone => ?_⟩
        rw [hnone]
        rfl

/-- C10 witness: the concrete admin-role request is rejected with the role
message, and the concrete role-less request creates a student. -/
theorem public_register_role_restricted_witness :
    registerUser emptyDB adminRequest (fun _ => true) (fun p => "h:" ++ p) =
      (RegisterUserResult.validationFailed
        (registerSchemaErrors (fun _ => true) adminRequest), emptyDB) ∧
    "Role must be either student or organizer" ∈
      registerSchemaErrors (fun _ => true) adminRequest ∧
    (sampleUser.role = Role.student ∨ sampleUser.role = Role.organizer) ∧
    sampleUser.role = Role.student :=
  ⟨(public_register_role_restricted.1 emptyDB adminRequest (fun _ => true)
      (fun p => "h:" ++ p) rfl).1,
   (public_register_role_restricted.1 emptyDB adminRequest (fun _ => true)
      (fun p => "h:" ++ p) rfl).2,
   (public_register_role_restricted.2 emptyDB sampleRequest (fun _ => true)
      (fun p => "h:" ++ p) sampleUser sampleToken sampleDB2 rfl).1,
   (public_register_role_restricted.2 emptyDB sampleRequest (fun _ => true)
      (fun p => "h:" ++ p) sampleUser sampleToken sampleDB2 rfl).2 rfl⟩

/-- C6: the register handler's decision order on the store: missing event
gives NotFound; a date not in the future gives InvalidState; an existing
(event, user) registration gives Conflict with the existing status named in
the message and the store unchanged; a full event gives Full; otherwise
exactly one new pending registration is appended. -/
theorem register_error_taxonomy (db : DB) (eventId userId : Nat) (now : Int) :
    (findEvent db eventId = none →
       registerForEvent db (some eventId) userId now = (RegisterResult.notFound, db)) ∧
    (∀ ev, findEvent db eventId = some ev → ev.date ≤ now →
       registerForEvent db (some eventId) userId now = (RegisterResult.invalidState, db)) ∧
    (∀ ev r, findEvent db eventId = some ev → now < ev.date →
       findRegistrationFor db eventId userId = some r →
       registerForEvent db (some eventId) userId now = (RegisterResult.conflict r.status, db) ∧
       registerResultMessage (RegisterResult.conflict r.status) =
         "Already registered for this event with status: " ++ r.status.toDbString) ∧
    (∀ ev, findEvent db eventId = some ev → now < ev.date →
       findRegistrationFor db eventId userId = none →
       ev.max_attendees ≤ approvedCount db eventId →
       registerForEvent db (some eventId) userId now = (RegisterResult.full, db)) ∧
    (∀ ev, findEvent db eventId = some ev → now < ev.date →
       findRegistrationFor db eventId userId = none →
       approvedCount db eventId < ev.max_attendees →
       registerForEvent db (some eventId) userId now =
         (RegisterResult.created
            { id := nextRegistrationId db, event_id := eventId, user_id := userId,
              status := RegStatus.pending },
          { db with registrations := db.registrations ++
              [{ id := nextRegistrationId db, event_id := eventId, user_id := userId,
                 status := RegStatus.pending }] })) := by
  refine ⟨?_, ?_, ?_, ?_, ?_⟩
  · intro h
    unfold registerForEvent
    dsimp only
    rw [h]
  · intro ev hev hpast
    unfold registerForEvent
    dsimp only
    rw [hev]
    dsimp only
    rw [if_pos hpast]
  · intro ev r hev hfut hreg
    unfold registerForEvent
    dsimp only
    rw [hev]
    dsimp only
    rw [if_neg (not_le.mpr hfut), hreg]
    exact ⟨rfl, rfl⟩
  · intro ev hev hfut hreg hge
    unfold registerForEvent
    dsimp only
    rw [hev]
    dsimp only
    rw [if_neg (not_le.mpr hfut), hreg]
    dsimp only
    rw [if_pos hge]
  · intro ev hev hfut hreg hlt
    unfold registerForEvent
    dsimp only
    rw [hev]
    dsimp only
    rw [if_neg (not_le.mpr hfut), hreg]
    dsimp only
    rw [if_neg (not_le.mpr hlt)]

/-- C6 witness: on the concrete full-event store, student A's repeated
register call is answered with Conflict carrying the stored approved
status, leaving the store unchanged. -/
theorem register_error_taxonomy_witness :
    registerForEvent dbFull (some 1) 4 0 = (RegisterResult.conflict RegStatus.approved, dbFull) ∧
    registerResultMessage (RegisterResult.conflict RegStatus.approved) =
      "Already registered for this event with status: " ++ RegStatus.approved.toDbString :=
  (register_error_taxonomy dbFull 1 4 0).2.2.1 eventOne regA rfl (by decide) rfl

/-- Helper: setting one registration (by primary key) to approved raises
the approved-rows count for an event by at most one. The primary-key
uniqueness of the id column is the store's own constraint (SERIAL PRIMARY
KEY in the setup script). -/
theorem filter_length_approve_update_le (l : List Registration) (regId eid : Nat)
    (hpk : (l.map (fun r => r.id)).Nodup) :
    ((l.map (fun r =>
        if r.id == regId then { r with status := RegStatus.approved } else r)).filter
      (fun r => r.event_id == eid && r.status == RegStatus.approved)).length ≤
    (l.filter (fun r => r.event_id == eid && r.status == RegStatus.approved)).length + 1 := by
  induction l with
  | nil => simp
  | cons a l ih =>
    simp only [List.map_cons, List.nodup_cons] at hpk
    obtain ⟨ha, hl⟩ := hpk
    by_cases hid : a.id = regId
    · have htail : ∀ r ∈ l,
          (if r.id == regId then { r with status := RegStatus.approved } else r) = r := by
        intro r hr
        have hne : r.id ≠ regId := by
          intro hcon
          exact ha (List.mem_map.mpr ⟨r, hr, by rw [hcon, hid]⟩)
        simp [hne]
      have hset : (if a.id == regId then { a with status := RegStatus.approved } else a) =
          { a with status := RegStatus.approved } := by
        simp [hid]
      rw [List.map_cons, List.map_congr_left htail, List.map_id', hset]
      have h1 : (List.filter (fun r => r.event_id == eid && r.status == RegStatus.approved)
            (({ a with status := RegStatus.approved } : Registration) :: l)).length ≤
          (List.filter (fun r => r.event_id == eid && r.status == RegStatus.approved) l).length + 1 := by
        rw [List.filter_cons]
        split <;> simp
      have h2 : (List.filter (fun r => r.event_id == eid && r.status == RegStatus.approved) l).length ≤
          (List.filter (fun r => r.event_id == eid && r.status == RegStatus.approved) (a :: l)).length := by
        rw [List.filter_cons]
        split <;> simp
      omega
    · have hkeep : (if a.id == regId then { a with status := RegStatus.approved } else a) = a := by
        simp [hid]
      rw [List.map_cons, hkeep, List.filter_cons, List.filter_cons]
      have hrec := ih hl
      by_cases hpa : (a.event_id == eid && a.status == RegStatus.approved) = true
      · rw [if_pos hpa, if_pos hpa]
        simp only [List.length_cons]
        omega
      · rw [if_neg hpa, if_neg hpa]
        omega

/-- C1: the authoritative capacity gate in setStatus. For an approval of an
existing registration by an authorized caller: when the approved-count
already reached the capacity the handler answers Full and changes nothing;
when it has not, the update goes through and the approved-count of the
event immediately afterwards still does not exceed the capacity. -/
theorem setStatus_approved_capacity_gate (db : DB) (regId : Nat) (caller : User)
    (registration : Registration) (event : Event)
    (hfind : findRegistrationWithEvent db regId = some (registration, event))
    (hauth : caller.role = Role.admin ∨ event.created_by = caller.id)
    (hpk : (db.registrations.map (fun r => r.id)).Nodup) :
    (event.max_attendees ≤ approvedCount db registration.event_id →
       setStatus db regId RegStatus.approved caller = (SetStatusResult.full, db)) ∧
    (approvedCount db registration.event_id < event.max_attendees →
       (setStatus db regId RegStatus.approved caller).1 =
         SetStatusResult.updated { registration with status := RegStatus.approved } ∧
       approvedCount (setStatus db regId RegStatus.approved caller).2
           registration.event_id ≤ event.max_attendees) := by
  have hnf : ¬(caller.role ≠ Role.admin ∧ event.created_by ≠ caller.id) := by
    rcases hauth with h | h
    · exact fun hc => hc.1 h
    · exact fun hc => hc.2 h
  constructor
  · intro hge
    unfold setStatus
    rw [hfind]
    dsimp only
    rw [if_neg hnf, if_pos ⟨rfl, hge⟩]
  · intro hlt
    have hnp : ¬(RegStatus.approved = RegStatus.approved ∧
        approvedCount db registration.event_id ≥ event.max_attendees) :=
      fun hc => absurd hc.2 (not_le.mpr hlt)
    unfold setStatus
    rw [hfind]
    dsimp only
    rw [if_neg hnf, if_neg hnp]
    refine ⟨rfl, ?_⟩
    show approvedCount
        { db with
          registrations :=
            List.map
              (fun r => if r.id == regId then { r with status := RegStatus.approved } else r)
              db.registrations }
        registration.event_id ≤ event.max_attendees
    unfold approvedCount at hlt ⊢
    have hbound := filter_length_approve_update_le db.registrations regId
      registration.event_id hpk
    dsimp only at hbound hlt ⊢
    omega

/-- The event used by the C1 concrete instance: capacity 1, owned by
organizer2. -/
def eventTwo : Event :=
  { id := 2, title := "Career Fair", date := 200, location := "Student Center",
    max_attendees := 1, created_by := 3 }

/-- Student A approved for eventTwo. -/
def regC : Registration :=
  { id := 3, event_id := 2, user_id := 4, status := RegStatus.approved }

/-- Student B pending for eventTwo. -/
def regD : Registration :=
  { id := 4, event_id := 2, user_id := 5, status := RegStatus.pending }

/-- Store for the C1 concrete instance. -/
def dbTwo : DB :=
  { users := [adminUser, orgUser, orgUser2, studentA, studentB],
    events := [eventTwo], registrations := [regC, regD] }

/-- C1 witness: on the concrete full event, organizer2's approval of the
pending registration is answered Full with the store unchanged. -/
theorem setStatus_approved_capacity_gate_witness :
    setStatus dbTwo 4 RegStatus.approved orgUser2 = (SetStatusResult.full, dbTwo) :=
  (setStatus_approved_capacity_gate dbTwo 4 orgUser2 regD eventTwo rfl
    (Or.inr rfl) (by decide)).1 (by decide)

end EventHive
